import Mathlib

/-!
Shallow embedding of `src/zfs_backup.py` (rhierlmeier/zfs_backup) and proofs
about its snapshot-identity, retention, replication and orchestration logic.

Conventions of the embedding:
* Python `datetime` values at second resolution become `PyDateTime` records.
* Python floats compared against the literal `0.2` become rationals; the
  comparisons the claims touch (`0.9 < 0.2`, `0.1 < 0.2`) are unaffected.
* External subprocesses are not run: functions that shell out are modelled
  over their observable inputs (exit code, stdout lines) and their effects are
  recorded as events (`Ev`).
* Uncaught Python exceptions (`ValueError` from `strptime`, `IndexError` from
  `list.pop(0)` on an empty list) are modelled with `Except PyError`.
-/

namespace ZfsBackup

/-- Python `datetime` restricted to what zfs_backup.py uses: second resolution,
no timezone (`DATE_TIME_FORMAT = "%Y-%m-%dT%H:%M:%S"`, line 34). -/
structure PyDateTime where
  year : Nat
  month : Nat
  day : Nat
  hour : Nat
  minute : Nat
  second : Nat
deriving DecidableEq, Repr

/-- Zero-pad a decimal rendering to `w` digits, as `strftime`'s `%Y`/`%m`/… do. -/
def zeroPad (w n : Nat) : String :=
  let s := toString n
  String.mk (List.replicate (w - s.length) '0') ++ s

/-- `backup_time.strftime(DATE_TIME_FORMAT)` (line 105): `YYYY-MM-DDTHH:MM:SS`. -/
def strftimeDateTime (t : PyDateTime) : String :=
  zeroPad 4 t.year ++ "-" ++ zeroPad 2 t.month ++ "-" ++ zeroPad 2 t.day ++ "T" ++
    zeroPad 2 t.hour ++ ":" ++ zeroPad 2 t.minute ++ ":" ++ zeroPad 2 t.second

def isDigitCh (c : Char) : Bool :=
  decide ('0' ≤ c ∧ c ≤ '9')

def digitVal (c : Char) : Option Nat :=
  if isDigitCh c then some (c.toNat - '0'.toNat) else none

def expectCh (c : Char) : List Char → Option (List Char)
  | [] => none
  | x :: rest => if x = c then some rest else none

def parse2Digits : List Char → Option (Nat × List Char)
  | a :: b :: rest =>
    match digitVal a, digitVal b with
    | some x, some y => some (x * 10 + y, rest)
    | _, _ => none
  | _ => none

def parse4Digits : List Char → Option (Nat × List Char)
  | a :: b :: c :: d :: rest =>
    match digitVal a, digitVal b, digitVal c, digitVal d with
    | some x, some y, some z, some w => some (((x * 10 + y) * 10 + z) * 10 + w, rest)
    | _, _, _, _ => none
  | _ => none

def isLeapYear (y : Nat) : Bool :=
  (y % 4 == 0 && y % 100 != 0) || (y % 400 == 0)

def daysInMonth (y m : Nat) : Nat :=
  if m = 2 then (if isLeapYear y then 29 else 28)
  else if m = 4 ∨ m = 6 ∨ m = 9 ∨ m = 11 then 30
  else 31

/-- `datetime.strptime(s, DATE_TIME_FORMAT)` (line 269): succeeds only on a
complete `YYYY-MM-DDTHH:MM:SS` string with calendar-valid fields, `none`
standing for the `ValueError` CPython raises otherwise.  (CPython also accepts
single-digit month/day/… fields; no string this program feeds to `strptime`
has them, so fixed two-digit fields are modelled.) -/
def strptimeDateTime (s : String) : Option PyDateTime := do
  let (y, r1) ← parse4Digits s.data
  let r2 ← expectCh '-' r1
  let (mo, r3) ← parse2Digits r2
  let r4 ← expectCh '-' r3
  let (d, r5) ← parse2Digits r4
  let r6 ← expectCh 'T' r5
  let (h, r7) ← parse2Digits r6
  let r8 ← expectCh ':' r7
  let (mi, r9) ← parse2Digits r8
  let r10 ← expectCh ':' r9
  let (sec, r11) ← parse2Digits r10
  if r11 = [] ∧ 1 ≤ mo ∧ mo ≤ 12 ∧ 1 ≤ d ∧ d ≤ daysInMonth y mo ∧
      h ≤ 23 ∧ mi ≤ 59 ∧ sec ≤ 59 then
    some ⟨y, mo, d, h, mi, sec⟩
  else none

/-- Order-preserving key for Python's field-lexicographic `datetime` comparison
(every field stays below its mixed-radix bound). -/
def PyDateTime.key (t : PyDateTime) : Nat :=
  ((((t.year * 13 + t.month) * 32 + t.day) * 24 + t.hour) * 60 + t.minute) * 60 + t.second

/-- `datetime` strict order (chronological). -/
def dtLt (a b : PyDateTime) : Bool :=
  Nat.blt (PyDateTime.key a) (PyDateTime.key b)

/-- The `Snapshot` value object (lines 85-92). `prefixStr` embeds the Python
attribute `prefix`. -/
structure Snapshot where
  pool : String
  dataset : String
  backup_pool : String
  backup_type : String
  backup_time : PyDateTime
  prefixStr : String
deriving DecidableEq, Repr

/-- `Snapshot.get_snap_name` (lines 104-105). -/
def Snapshot.get_snap_name (s : Snapshot) : String :=
  s.prefixStr ++ "-" ++ s.backup_type ++ "-" ++ strftimeDateTime s.backup_time

/-- `Snapshot.get_full_qualified_snap_name` (lines 107-108). -/
def Snapshot.get_full_qualified_snap_name (s : Snapshot) : String :=
  s.pool ++ "/" ++ s.dataset ++ "@" ++ Snapshot.get_snap_name s

/-- `Snapshot.get_full_qualified_backup_snap_name` (lines 110-111). -/
def Snapshot.get_full_qualified_backup_snap_name (s : Snapshot) : String :=
  s.backup_pool ++ "/" ++ s.dataset ++ "@" ++ Snapshot.get_snap_name s

/-- Character class `[a-z_]` of the inventory regex (line 261). -/
def isSnapTokenChar (c : Char) : Bool :=
  decide (('a' ≤ c ∧ c ≤ 'z') ∨ c = '_')

def digitAtMost (c hi : Char) : Bool :=
  isDigitCh c && decide (c ≤ hi)

/-- `DATE_TIME_PATTERN` (line 31):
`\d{4}-[0-1]\d-[0-3]\dT[0-2]\d:[0-6]\d:[0-6]\d`, exactly 19 characters. -/
def matchTimestampPattern : List Char → Bool
  | [y1, y2, y3, y4, h1, m1, m2, h2, d1, d2, t, hh1, hh2, c1, mi1, mi2, c2, s1, s2] =>
      isDigitCh y1 && isDigitCh y2 && isDigitCh y3 && isDigitCh y4 &&
      h1 == '-' && digitAtMost m1 '1' && isDigitCh m2 &&
      h2 == '-' && digitAtMost d1 '3' && isDigitCh d2 &&
      t == 'T' && digitAtMost hh1 '2' && isDigitCh hh2 &&
      c1 == ':' && digitAtMost mi1 '6' && isDigitCh mi2 &&
      c2 == ':' && digitAtMost s1 '6' && isDigitCh s2
  | _ => false

/-- The suffix after the LAST `@`, i.e. where the greedy `^.*@` of the regex
on line 261 commits (none of `[a-z_]`, `-` or the timestamp characters can be
`@`, so no earlier `@` can back-track into a match). -/
def afterLastAt : List Char → Option (List Char)
  | [] => none
  | c :: rest =>
    match afterLastAt rest with
    | some r => some r
    | none => if c = '@' then some rest else none

/-- `([a-z_]+)-([a-z_]+)`: exactly two non-empty dash-free `[a-z_]` tokens. -/
def splitTokens (front : List Char) : Option (List Char × List Char) :=
  match front.splitOn '-' with
  | [a, b] =>
    if !a.isEmpty && !b.isEmpty && a.all isSnapTokenChar && b.all isSnapTokenChar then
      some (a, b)
    else none
  | _ => none

/-- The anchored regex of `get_snapshots` (line 261):
`^.*@([a-z_]+)-([a-z_]+)-(DATE_TIME_PATTERN)$`, returning
(group 1, group 2, group 3) on a match. -/
def matchSnapRegex (line : String) : Option (String × String × String) :=
  match afterLastAt line.data with
  | none => none
  | some r =>
    let rev := r.reverse
    if matchTimestampPattern (rev.take 19).reverse then
      match rev.drop 19 with
      | '-' :: frontRev =>
        match splitTokens frontRev.reverse with
        | some (a, b) => some (String.mk a, String.mk b, String.mk (rev.take 19).reverse)
        | none => none
      | _ => none
    else none

/-- Uncaught Python exceptions the embedding tracks. -/
inductive PyError where
  | valueError
  | indexError
deriving DecidableEq, Repr

/-- One iteration of the loop body of `get_snapshots` (lines 264-271).
Faithful to the source, including its slips: line 269 passes `result.group(2)`
— the tier token, group 3 is the timestamp — to `datetime.strptime`, which
raises `ValueError` on every `[a-z_]+` token; and line 271 builds the
`Snapshot` from the module-global `dataset` (equal to the `_dataset` argument
at every call site), passed here as `globalDataset`. -/
def parseSnapLine (pool backupPool globalDataset : String) (line : String) :
    Except PyError (Option Snapshot) :=
  match matchSnapRegex line with
  | none => Except.ok none
  | some (p, t, _ts) =>
    match strptimeDateTime t with
    | none => Except.error PyError.valueError
    | some dt =>
      Except.ok (some { pool := pool, dataset := globalDataset, backup_pool := backupPool,
                        backup_type := t, backup_time := dt, prefixStr := p })

/-- `get_snapshots` (lines 256-273) over the lines of
`zfs list -t snapshot -H -o name <pool>/<dataset>`; a raised `ValueError`
aborts the whole listing. -/
def get_snapshots (pool backupPool globalDataset : String) :
    List String → Except PyError (List Snapshot)
  | [] => Except.ok []
  | l :: rest =>
    match parseSnapLine pool backupPool globalDataset l with
    | Except.error e => Except.error e
    | Except.ok none => get_snapshots pool backupPool globalDataset rest
    | Except.ok (some s) =>
      match get_snapshots pool backupPool globalDataset rest with
      | Except.error e => Except.error e
      | Except.ok tl => Except.ok (s :: tl)

/-- The observable result of one `subprocess.run` (stdout already decoded and
split into lines, as lines 264 and 296 do). -/
structure ProcResult where
  returncode : Int
  stdout : List String
  stderr : String

/-- `ZPoolStatus.__init__` defaults (lines 276-281): `available=False`,
`health="UNAVAIL"`, `capacity_in_percent=0.0`. -/
structure ZPoolStatus where
  name : String
  available : Bool := false
  health : String := "UNAVAIL"
  capacity_in_percent : ℚ := 0
deriving DecidableEq, Repr

/-- Python's whitespace class `\s` (ASCII). -/
def isWsCh (c : Char) : Bool :=
  c == ' ' || c == '\t' || c == '\n' || c == '\r' || c == '\x0b' || c == '\x0c'

/-- Expect a literal character sequence at the front. -/
def dropLiteral : List Char → List Char → Option (List Char)
  | cs, [] => some cs
  | [], _ :: _ => none
  | c :: cs, l :: ls => if c = l then dropLiteral cs ls else none

/-- `\s+`: at least one whitespace character, greedily. -/
def dropWs1 (cs : List Char) : Option (List Char) :=
  match cs with
  | [] => none
  | c :: rest => if isWsCh c then some (rest.dropWhile isWsCh) else none

/-- `([^\s]+)`: a maximal non-empty run of non-whitespace characters. -/
def takeNonWs1 (cs : List Char) : Option (List Char × List Char) :=
  match cs with
  | [] => none
  | c :: _ =>
    if isWsCh c then none
    else some (cs.takeWhile (fun x => !isWsCh x), cs.dropWhile (fun x => !isWsCh x))

/-- The line regex of `get_zpool_status` (line 294):
`^<poolName>\s+([^\s]+)\s+([^\s]+)\s+` via `re.match` (anchored at the start
only; the pool name is interpolated literally — the names used contain no
regex metacharacters).  Returns (group 1, group 2) on a match. -/
def matchStatusLine (poolName : String) (line : String) : Option (String × String) :=
  match dropLiteral line.data poolName.data with
  | none => none
  | some r1 =>
    match dropWs1 r1 with
    | none => none
    | some r2 =>
      match takeNonWs1 r2 with
      | none => none
      | some (g1, r3) =>
        match dropWs1 r3 with
        | none => none
        | some r4 =>
          match takeNonWs1 r4 with
          | none => none
          | some (g2, r5) =>
            match dropWs1 r5 with
            | none => none
            | some _ => some (String.mk g1, String.mk g2)

/-- CPython `float()` on the strings `zpool get -p` prints: optional sign,
decimal digits with an optional fractional part.  (Whitespace, exponents and
inf/nan spellings never occur in that output and are not modelled.)  `none`
stands for the `ValueError` float() raises. -/
def pyFloat (s : String) : Option ℚ :=
  let step1 : Bool × List Char :=
    match s.data with
    | '-' :: r => (true, r)
    | '+' :: r => (false, r)
    | cs => (false, cs)
  let neg := step1.1
  let cs := step1.2
  let ip := cs.takeWhile isDigitCh
  let rest := cs.dropWhile isDigitCh
  let intVal : Nat := ip.foldl (fun acc c => acc * 10 + (c.toNat - '0'.toNat)) 0
  match rest with
  | [] =>
    if ip.isEmpty then none
    else some (if neg then -(intVal : ℚ) else (intVal : ℚ))
  | '.' :: fr =>
    if fr.all isDigitCh && (!ip.isEmpty || !fr.isEmpty) then
      let frVal : Nat := fr.foldl (fun acc c => acc * 10 + (c.toNat - '0'.toNat)) 0
      let q : ℚ := (intVal : ℚ) + (frVal : ℚ) / ((10 : ℚ) ^ fr.length)
      some (if neg then -q else q)
    else none
  | _ => none

/-- The line loop of `get_zpool_status` (lines 296-307), updating the status
record with each `health`/`capacity` property line; a non-numeric capacity
value makes `float()` raise `ValueError`. -/
def statusFold (poolName : String) (st : ZPoolStatus) :
    List String → Except PyError ZPoolStatus
  | [] => Except.ok st
  | l :: rest =>
    match matchStatusLine poolName l with
    | none => statusFold poolName st rest
    | some pv =>
      if pv.1 = "health" then statusFold poolName { st with health := pv.2 } rest
      else if pv.1 = "capacity" then
        match pyFloat pv.2 with
        | none => Except.error PyError.valueError
        | some q => statusFold poolName { st with capacity_in_percent := q } rest
      else statusFold poolName st rest

/-- `get_zpool_status` (lines 284-309): a failing `zpool get` (non-zero exit)
returns the default-constructed status — available=false, health UNAVAIL,
capacity 0 — without raising; on success `available` is set to `True` and the
output lines are folded in. -/
def get_zpool_status (poolName : String) (res : ProcResult) : Except PyError ZPoolStatus :=
  if res.returncode ≠ 0 then Except.ok { name := poolName }
  else statusFold poolName { name := poolName, available := true } res.stdout

/-- What one call of `exec_cmd_and_exit_on_error` (lines 317-334) observably
does: the subprocess launches it performs, and either the result it returns or
the `exit(1)` it takes.  `subprocess.run(_cmd, ...)` appears TWICE in the
source (lines 319 and 327); the return code checked is the first run's while
the result returned is the second run's. -/
structure ExecResult where
  launches : List (List String)
  outcome : Except Unit ProcResult

def exec_cmd_and_exit_on_error (runner : List String → ProcResult)
    (cmd : List String) : ExecResult :=
  let res1 := runner cmd
  let returnCode := res1.returncode
  let res2 := runner cmd
  { launches := [cmd, cmd],
    outcome := if returnCode ≠ 0 then Except.error () else Except.ok res2 }

/-- The run-time configuration record (lines 37-53). `prefixStr` embeds the
Python attribute `prefix`. -/
structure Config where
  pool : String
  backup_pool : String
  datasets : List String
  num_backups_daily : Int
  num_backups_weekly : Int
  num_backups_monthly : Int
  nums_backups_yearly : Int
  log_file : String
  run_file : String
  mail_to : String
  prefixStr : String

/-- `Config.get_num_backups` (lines 55-66); `none` models the
`logging.error` + `exit(1)` taken for an unsupported backup type. -/
def Config.get_num_backups (c : Config) (t : String) : Option Int :=
  if t = "daily" then some c.num_backups_daily
  else if t = "weekly" then some c.num_backups_weekly
  else if t = "monthly" then some c.num_backups_monthly
  else if t = "yearly" then some c.nums_backups_yearly
  else none

/-- `sendmail` (lines 417-426) as the list of the four `p.write` payloads, in
order.  Line 420 writes the literal recipient `news@hierlmeier.de`; the
configuration (and its `mail_to` field) is never consulted. -/
def sendmail (_config : Config) (body subject : String) : List String :=
  ["To: " ++ "news@hierlmeier.de" ++ "\n",
   "Subject: " ++ subject ++ "\n",
   "\n",
   body]

/-- The externally visible actions one `backup(...)` call performs, in order.
`failNotify`/`warnNotify` carry the `_msg` handed to `zfs_backup_failed`
(lines 429-435) / `zfs_backup_warn` (lines 438-443); both wrap it into a
`sendmail` body in which `_msg` appears verbatim. -/
inductive Ev where
  | failNotify (msg : String)
  | warnNotify (msg : String)
  | zpoolImport (pool : String)
  | zpoolExport (pool : String)
  | zfsDestroy (fqn : String)
  | zfsSnapshot (fqn : String)
  | sendFull (src dst : String)
  | sendIncr (base src dst : String)
deriving DecidableEq, Repr

/-- How one `backup(...)` call ends: normally, by `exit(1)` after a failure
notification, or with an uncaught Python exception. -/
inductive Outcome where
  | completed
  | aborted
  | raised (e : PyError)
deriving DecidableEq, Repr

/-- The eviction loop of `backup` (lines 403-404):
`while len(_snapshots) > _num_backups_to_keep - 1: _snapshots.pop(0).destroy()`.
Returns the evicted snapshots in eviction order together with either the
surviving list or the `IndexError` that `pop(0)` raises on an empty list —
which it always reaches when `_num_backups_to_keep ≤ 0`, since
`len(_snapshots) > -1` never becomes false. -/
def retentionLoop (numKeep : Int) :
    List Snapshot → List Snapshot × Except PyError (List Snapshot)
  | [] =>
    if (0 : Int) > numKeep - 1 then ([], Except.error PyError.indexError)
    else ([], Except.ok [])
  | s :: rest =>
    if ((s :: rest).length : Int) > numKeep - 1 then
      let r := retentionLoop numKeep rest
      (s :: r.1, r.2)
    else ([], Except.ok (s :: rest))

/-- `Snapshot.destroy` (lines 97-99) for each evicted snapshot: destroy the
source-pool snapshot, then its backup-pool counterpart. -/
def destroyEvents : List Snapshot → List Ev
  | [] => []
  | s :: rest =>
    Ev.zfsDestroy (Snapshot.get_full_qualified_snap_name s) ::
    Ev.zfsDestroy (Snapshot.get_full_qualified_backup_snap_name s) ::
    destroyEvents rest

/-- Lines 389-401 of `backup`: the incremental base.  Line 389 calls
`sorted(_all_snapshots, key=..., reverse=True)` but DISCARDS the returned
list, so `_all_snapshots` keeps its listing order; lines 399-400 then take
`_all_snapshots[len(_all_snapshots) - 1]`, the last LISTED snapshot. -/
def selectLastSnapshot (allSnapshots : List Snapshot) : Option Snapshot :=
  if allSnapshots.length > 0 then allSnapshots.get? (allSnapshots.length - 1) else none

/-- The new snapshot built at lines 407/410 (both branches of the
`if len(_snapshots) == 0` are identical). -/
def newSnapshot (c : Config) (ds btype : String) (now : PyDateTime) : Snapshot :=
  { pool := c.pool, dataset := ds, backup_pool := c.backup_pool,
    backup_type := btype, backup_time := now, prefixStr := c.prefixStr }

/-- `Snapshot.create` (lines 113-133): full send when `_last_snap is None`,
incremental send (`zfs send -i`) against it otherwise. -/
def sendEvent : Option Snapshot → Snapshot → Ev
  | none, ns =>
    Ev.sendFull (Snapshot.get_full_qualified_snap_name ns)
      (Snapshot.get_full_qualified_backup_snap_name ns)
  | some ls, ns =>
    Ev.sendIncr (Snapshot.get_full_qualified_snap_name ls)
      (Snapshot.get_full_qualified_snap_name ns)
      (Snapshot.get_full_qualified_backup_snap_name ns)

/-- Lines 389-411 of `backup` given the parsed inventory: select the base,
filter the requested tier, evict, snapshot, send. -/
def snapshotPhase2 (c : Config) (ds btype : String) (numKeep : Int)
    (allSnaps : List Snapshot) (now : PyDateTime) : List Ev × Except PyError Unit :=
  match retentionLoop numKeep (allSnaps.filter fun s => s.backup_type == btype) with
  | (evicted, Except.error e) => (destroyEvents evicted, Except.error e)
  | (evicted, Except.ok _) =>
    (destroyEvents evicted ++
      [Ev.zfsSnapshot (Snapshot.get_full_qualified_snap_name (newSnapshot c ds btype now)),
       sendEvent (selectLastSnapshot allSnaps) (newSnapshot c ds btype now)],
     Except.ok ())

/-- Lines 387-411 of `backup`: list the inventory (which raises `ValueError`
as soon as a line matches the snapshot regex, see `parseSnapLine`), then
`snapshotPhase2`. -/
def snapshotPhase (c : Config) (ds btype : String) (numKeep : Int)
    (listing : List String) (now : PyDateTime) : List Ev × Except PyError Unit :=
  match get_snapshots c.pool c.backup_pool ds listing with
  | Except.error e => ([], Except.error e)
  | Except.ok allSnaps => snapshotPhase2 c ds btype numKeep allSnaps now

/-- Lines 378-414 of `backup`, entered with `bk` the backup-pool status in use
(the re-probe after the import when `imported`, the original probe otherwise):
health gate, the capacity check `_backupPoolStatus.capacity_in_percent < 0.2`
(line 383), the snapshot/replication phase, and the conditional export. -/
def backupWithPool (c : Config) (ds btype : String) (numKeep : Int)
    (imported : Bool) (bk : ZPoolStatus) (listing : List String)
    (now : PyDateTime) : List Ev × Outcome :=
  let importEvs := if imported then [Ev.zpoolImport c.backup_pool] else []
  if bk.health ≠ "ONLINE" then
    (importEvs ++
      [Ev.failNotify ("backup zpool " ++ c.backup_pool ++ " is not healthy (health=" ++
        bk.health ++ ")")],
     Outcome.aborted)
  else
    let warnEvs :=
      if bk.capacity_in_percent < mkRat 2 10 then
        [Ev.warnNotify ("Low capacity " ++ toString bk.capacity_in_percent ++ " in pool " ++
          bk.name)]
      else []
    match snapshotPhase c ds btype numKeep listing now with
    | (evs, Except.error e) => (importEvs ++ warnEvs ++ evs, Outcome.raised e)
    | (evs, Except.ok _) =>
      (importEvs ++ warnEvs ++ evs ++
        (if imported then [Ev.zpoolExport c.backup_pool] else []),
       Outcome.completed)

/-- `backup` (lines 354-414) over its observable inputs: the probed source
status, the first backup-pool probe, and the re-probe taken after an import
(lines 369-376; `bk1` is read only when the first probe was unavailable). -/
def backup (c : Config) (ds btype : String) (src bk0 bk1 : ZPoolStatus)
    (listing : List String) (now : PyDateTime) : List Ev × Outcome :=
  match Config.get_num_backups c btype with
  | none => ([], Outcome.aborted)
  | some numKeep =>
    if src.available = false then
      ([Ev.failNotify ("zpool " ++ c.pool ++ " is not available")], Outcome.aborted)
    else if src.health ≠ "ONLINE" then
      ([Ev.failNotify ("zpool " ++ c.pool ++ " is not healthy (health=" ++ src.health ++ ")")],
       Outcome.aborted)
    else if bk0.available = false then
      backupWithPool c ds btype numKeep true bk1 listing now
    else
      backupWithPool c ds btype numKeep false bk0 listing now

/-- What the run-lock scope leaves behind. -/
structure MainEnd where
  runFileContent : String
  lockReleased : Bool
deriving DecidableEq, Repr

/-- The `with _lock.acquire():` region of `__main__` (lines 501-516): the run
file receives the pid line on entry; the truncating rewrite to `""` (lines
513-514) runs only when every `backup(...)` call returned normally (`ok`),
while the `filelock` context manager releases the lock on every exit,
including a `SystemExit`/exception escaping the body. -/
def mainLockRegion (pid : Nat) (bodyCompleted : Bool) : MainEnd :=
  if bodyCompleted then
    { runFileContent := "", lockReleased := true }
  else
    { runFileContent := toString pid ++ "\n", lockReleased := true }

/-! ### Event classification and string-containment helpers -/

def isWarnEv : Ev → Bool
  | Ev.warnNotify _ => true
  | _ => false

def isExportEv : Ev → Bool
  | Ev.zpoolExport _ => true
  | _ => false

def isImportEv : Ev → Bool
  | Ev.zpoolImport _ => true
  | _ => false

def isSnapshotEv : Ev → Bool
  | Ev.zfsSnapshot _ => true
  | _ => false

/-- Events produced by the snapshot/eviction/send phase (everything that is
neither a notification nor a pool import/export). -/
def isDataEv : Ev → Bool
  | Ev.zfsDestroy _ => true
  | Ev.zfsSnapshot _ => true
  | Ev.sendFull _ _ => true
  | Ev.sendIncr _ _ _ => true
  | _ => false

def strStartsWithL : List Char → List Char → Bool
  | _, [] => true
  | [], _ :: _ => false
  | a :: as, b :: bs => a == b && strStartsWithL as bs

def strContainsL (hay needle : List Char) : Bool :=
  match hay with
  | [] => strStartsWithL [] needle
  | c :: rest => strStartsWithL (c :: rest) needle || strContainsL rest needle

/-- Substring test (case sensitive), executable. -/
def strContains (hay needle : String) : Bool :=
  strContainsL hay.data needle.data

theorem stringDataAppend (a b : String) : (a ++ b).data = a.data ++ b.data := rfl

theorem strStartsWithL_nil (hay : List Char) : strStartsWithL hay [] = true := by
  cases hay <;> rfl

theorem strStartsWithL_append (a b : List Char) : strStartsWithL (a ++ b) a = true := by
  induction a with
  | nil => exact strStartsWithL_nil b
  | cons c cs ih => simp [strStartsWithL, ih]

theorem strContainsL_of_startsWith (hay needle : List Char)
    (h : strStartsWithL hay needle = true) : strContainsL hay needle = true := by
  cases hay with
  | nil => exact h
  | cons c rest => simp [strContainsL, h]

theorem strContainsL_cons (c : Char) (rest needle : List Char) :
    strContainsL (c :: rest) needle =
      (strStartsWithL (c :: rest) needle || strContainsL rest needle) := rfl

theorem strContainsL_append_left (pre suf needle : List Char)
    (h : strContainsL suf needle = true) : strContainsL (pre ++ suf) needle = true := by
  induction pre with
  | nil => exact h
  | cons c cs ih =>
    rw [List.cons_append, strContainsL_cons, ih]
    simp

/-- A string that occurs between two others is contained in the whole. -/
theorem strContains_sandwich (pre mid suf : String) :
    strContains (pre ++ mid ++ suf) mid = true := by
  unfold strContains
  rw [stringDataAppend, stringDataAppend]
  rw [List.append_assoc]
  exact strContainsL_append_left _ _ _
    (strContainsL_of_startsWith _ _ (strStartsWithL_append mid.data suf.data))

/-! ### Trace-shape lemmas -/

theorem destroyEvents_dataOnly (l : List Snapshot) :
    (destroyEvents l).all isDataEv = true := by
  induction l with
  | nil => rfl
  | cons s rest ih => simp [destroyEvents, isDataEv, ih]

theorem sendEvent_dataOnly (o : Option Snapshot) (ns : Snapshot) :
    isDataEv (sendEvent o ns) = true := by
  cases o <;> rfl

theorem snapshotPhase2_dataOnly (c : Config) (ds btype : String) (numKeep : Int)
    (allSnaps : List Snapshot) (now : PyDateTime) :
    ((snapshotPhase2 c ds btype numKeep allSnaps now).1.all isDataEv) = true := by
  unfold snapshotPhase2
  rcases hrl : retentionLoop numKeep (List.filter (fun s => s.backup_type == btype) allSnaps)
    with ⟨evicted, res⟩
  cases res with
  | error e => simpa using destroyEvents_dataOnly evicted
  | ok kept =>
    simp only [List.all_append, List.all_cons, List.all_nil, destroyEvents_dataOnly,
      sendEvent_dataOnly, Bool.and_true, Bool.true_and]
    rfl

theorem snapshotPhase_dataOnly (c : Config) (ds btype : String) (numKeep : Int)
    (listing : List String) (now : PyDateTime) :
    ((snapshotPhase c ds btype numKeep listing now).1.all isDataEv) = true := by
  unfold snapshotPhase
  cases hgs : get_snapshots c.pool c.backup_pool ds listing with
  | error e => simp
  | ok allSnaps => simpa using snapshotPhase2_dataOnly c ds btype numKeep allSnaps now

theorem dataOnly_no_warn (l : List Ev) (h : l.all isDataEv = true) :
    l.any isWarnEv = false := by
  induction l with
  | nil => rfl
  | cons e rest ih =>
    rw [List.all_cons, Bool.and_eq_true] at h
    rw [List.any_cons, Bool.or_eq_false_iff]
    refine ⟨?_, ih h.2⟩
    cases e <;> simp_all [isDataEv, isWarnEv]

theorem dataOnly_no_export (l : List Ev) (h : l.all isDataEv = true) :
    l.any isExportEv = false := by
  induction l with
  | nil => rfl
  | cons e rest ih =>
    rw [List.all_cons, Bool.and_eq_true] at h
    rw [List.any_cons, Bool.or_eq_false_iff]
    refine ⟨?_, ih h.2⟩
    cases e <;> simp_all [isDataEv, isExportEv]

theorem statusFold_available (poolName : String) :
    ∀ (lines : List String) (st st' : ZPoolStatus),
      statusFold poolName st lines = Except.ok st' → st'.available = st.available
  | [], st, st', h => by
    simp only [statusFold] at h
    cases h
    rfl
  | l :: rest, st, st', h => by
    cases hm : matchStatusLine poolName l with
    | none =>
      simp only [statusFold, hm] at h
      exact statusFold_available poolName rest st st' h
    | some pv =>
      simp only [statusFold, hm] at h
      by_cases h1 : pv.1 = "health"
      · simp only [h1, if_true] at h
        have hrec := statusFold_available poolName rest _ st' h
        exact hrec
      · rw [if_neg h1] at h
        by_cases h2 : pv.1 = "capacity"
        · rw [if_pos h2] at h
          cases hf : pyFloat pv.2 with
          | none =>
            simp only [hf] at h
            exact absurd h (by simp)
          | some q =>
            simp only [hf] at h
            have hrec := statusFold_available poolName rest _ st' h
            exact hrec
        · rw [if_neg h2] at h
          exact statusFold_available poolName rest st st' h

theorem backupWithPool_warn_any (c : Config) (ds btype : String) (numKeep : Int)
    (imported : Bool) (bk : ZPoolStatus) (listing : List String) (now : PyDateTime)
    (hh : bk.health = "ONLINE") :
    ((backupWithPool c ds btype numKeep imported bk listing now).1.any isWarnEv = true) ↔
      bk.capacity_in_percent < mkRat 2 10 := by
  rcases hph : snapshotPhase c ds btype numKeep listing now with ⟨evs, res⟩
  have hevs : evs.any isWarnEv = false := by
    have h1 := snapshotPhase_dataOnly c ds btype numKeep listing now
    rw [hph] at h1
    exact dataOnly_no_warn evs h1
  have himp : (if imported then [Ev.zpoolImport c.backup_pool] else []).any isWarnEv = false := by
    cases imported <;> simp [isWarnEv]
  have hexp : (if imported then [Ev.zpoolExport c.backup_pool] else []).any isWarnEv = false := by
    cases imported <;> simp [isWarnEv]
  unfold backupWithPool
  rw [if_neg (show ¬bk.health ≠ "ONLINE" from by simp [hh]), hph]
  by_cases hc : bk.capacity_in_percent < mkRat 2 10
  · cases res <;> simp [hc, himp, hexp, hevs, isWarnEv, List.any_append]
  · cases res <;> simp [hc, himp, hexp, hevs, isWarnEv, List.any_append]

theorem backupWithPool_snd (c : Config) (ds btype : String) (numKeep : Int)
    (imported : Bool) (bk : ZPoolStatus) (listing : List String) (now : PyDateTime) :
    (backupWithPool c ds btype numKeep imported bk listing now).2 =
      (if bk.health ≠ "ONLINE" then Outcome.aborted
       else match (snapshotPhase c ds btype numKeep listing now).2 with
            | Except.error e => Outcome.raised e
            | Except.ok _ => Outcome.completed) := by
  unfold backupWithPool
  rcases hph : snapshotPhase c ds btype numKeep listing now with ⟨evs, res⟩
  by_cases hh : bk.health ≠ "ONLINE"
  · rw [if_pos hh, if_pos hh]
  · rw [if_neg hh, if_neg hh]
    cases res <;> rfl

theorem backupWithPool_export (c : Config) (ds btype : String) (numKeep : Int)
    (imported : Bool) (bk : ZPoolStatus) (listing : List String) (now : PyDateTime) :
    ((backupWithPool c ds btype numKeep imported bk listing now).1.any isExportEv = true) ↔
      (imported = true ∧
        (backupWithPool c ds btype numKeep imported bk listing now).2 = Outcome.completed) := by
  rcases hph : snapshotPhase c ds btype numKeep listing now with ⟨evs, res⟩
  have hevs : evs.any isExportEv = false := by
    have h1 := snapshotPhase_dataOnly c ds btype numKeep listing now
    rw [hph] at h1
    exact dataOnly_no_export evs h1
  have himp : (if imported then [Ev.zpoolImport c.backup_pool] else []).any isExportEv = false := by
    cases imported <;> simp [isExportEv]
  unfold backupWithPool
  by_cases hh : bk.health ≠ "ONLINE"
  · rw [if_pos hh]
    simp [himp, isExportEv, List.any_append]
  · rw [if_neg hh, hph]
    by_cases hc : bk.capacity_in_percent < mkRat 2 10
    · cases res with
      | error e => simp [hc, himp, hevs, isWarnEv, isExportEv, List.any_append]
      | ok u =>
        cases imported <;> simp [hc, himp, hevs, isWarnEv, isExportEv, List.any_append]
    · cases res with
      | error e => simp [hc, himp, hevs, isWarnEv, isExportEv, List.any_append]
      | ok u =>
        cases imported <;> simp [hc, himp, hevs, isWarnEv, isExportEv, List.any_append]

/-! ### Concrete fixtures for the claim theorems -/

def cfgEx : Config :=
  { pool := "tank", backup_pool := "bkp", datasets := ["data"],
    num_backups_daily := 3, num_backups_weekly := 2, num_backups_monthly := 2,
    nums_backups_yearly := 1, log_file := "/var/log/zfs_backup.log",
    run_file := "/var/run/zfs_backup.run", mail_to := "ops@example.org",
    prefixStr := "backup" }

def cfgK0 : Config := { cfgEx with num_backups_daily := 0 }

def srcOn : ZPoolStatus :=
  { name := "tank", available := true, health := "ONLINE", capacity_in_percent := 50 }

def bkOn : ZPoolStatus :=
  { name := "bkp", available := true, health := "ONLINE", capacity_in_percent := 50 }

def bkLow : ZPoolStatus := { bkOn with capacity_in_percent := mkRat 1 10 }

def bkHigh : ZPoolStatus := { bkOn with capacity_in_percent := mkRat 9 10 }

def degSrc : ZPoolStatus := { srcOn with health := "DEGRADED" }

def degBk : ZPoolStatus := { bkOn with health := "DEGRADED" }

def unavailTank : ZPoolStatus := { name := "tank" }

def unavailBkp : ZPoolStatus := { name := "bkp" }

def dtEx : PyDateTime := ⟨2024, 1, 2, 3, 4, 5⟩

def c1Snap : Snapshot :=
  { pool := "tank", dataset := "data", backup_pool := "bkp", backup_type := "daily",
    backup_time := dtEx, prefixStr := "backup" }

def c3Weekly : Snapshot :=
  { pool := "tank", dataset := "data", backup_pool := "bkp", backup_type := "weekly",
    backup_time := ⟨2024, 1, 12, 0, 0, 0⟩, prefixStr := "backup" }

def c3Daily : Snapshot :=
  { pool := "tank", dataset := "data", backup_pool := "bkp", backup_type := "daily",
    backup_time := ⟨2024, 1, 10, 0, 0, 0⟩, prefixStr := "backup" }

def zfsListCmd : List String :=
  ["zfs", "list", "-t", "snapshot", "-H", "-o", "name", "tank/data"]

def okRunner : List String → ProcResult := fun _ => ⟨0, [], ""⟩

/-! ### Claim theorems -/

/-- Claim C1 (evidence of the code bug): parsing the fully qualified name
produced by formatting a valid descriptor does not yield the descriptor:
line 269 hands regex group 2 — the tier token, e.g. "daily" — to
`datetime.strptime`, which raises `ValueError` on it, so `parse(format(x))`
crashes (both per line and for the whole listing) instead of round-tripping. -/
theorem C1_parse_format_raises :
    parseSnapLine "tank" "bkp" "data" (Snapshot.get_full_qualified_snap_name c1Snap) =
      Except.error PyError.valueError ∧
    get_snapshots "tank" "bkp" "data" [Snapshot.get_full_qualified_snap_name c1Snap] =
      Except.error PyError.valueError := by
  exact ⟨rfl, rfl⟩

/-- Claim C2 (evidence of the code bug): with keep-count K=0 for the requested
tier and an empty inventory (N=0), one backup cycle raises an uncaught
`IndexError` — the eviction loop `while len(_snapshots) > -1: pop(0)` pops
from an empty list — with an empty event trace: no snapshot is created and
nothing is replicated, instead of create + replicate + evict to zero. -/
theorem C2_keep_zero_raises_before_snapshot :
    backup cfgK0 "data" "daily" srcOn bkOn bkOn [] dtEx =
      ([], Outcome.raised PyError.indexError) := by
  decide

/-- Claim C3 (evidence of the code bug): the incremental base is the LAST
LISTED snapshot, not the one with maximum creation timestamp — line 389's
`sorted(...)` call discards its result — so with the weekly t=12 snapshot
listed before the daily t=10 one the selected base is the strictly older
daily snapshot; moreover, whenever any generational snapshot exists in the
listing, the composed `backup` raises `ValueError` (claim C1's bug) before
any transfer is attempted at all. -/
theorem C3_base_is_last_listed_not_max :
    selectLastSnapshot [c3Weekly, c3Daily] = some c3Daily ∧
    dtLt c3Daily.backup_time c3Weekly.backup_time = true ∧
    (backup cfgEx "data" "monthly" srcOn bkOn bkOn
        ["tank/data@backup-weekly-2024-01-12T00:00:00"] dtEx).2 =
      Outcome.raised PyError.valueError := by
  decide

/-- Claim C4 (evidence of the code bug): one call of
`exec_cmd_and_exit_on_error` launches the external command subprocess TWICE
(`subprocess.run` appears at lines 319 and 327), so listing, pool import and
pool export commands are not attempted exactly once per logical step. -/
theorem C4_command_launched_twice :
    (exec_cmd_and_exit_on_error okRunner zfsListCmd).launches = [zfsListCmd, zfsListCmd] ∧
    (exec_cmd_and_exit_on_error okRunner zfsListCmd).launches.length ≠ 1 := by
  decide

theorem stringAppendAssoc (a b c : String) : a ++ b ++ c = a ++ (b ++ c) := by
  cases a with
  | mk la =>
    cases b with
    | mk lb =>
      cases c with
      | mk lc =>
        show String.mk ((la ++ lb) ++ lc) = String.mk (la ++ (lb ++ lc))
        rw [List.append_assoc]

/-- Under healthy gating (source available and ONLINE, backup pool available so
no import happens), `backup` reduces to `backupWithPool` on the first probe. -/
theorem backup_reduces_no_import (c : Config) (ds btype : String) (k : Int)
    (src bk bk1 : ZPoolStatus) (listing : List String) (now : PyDateTime)
    (hk : Config.get_num_backups c btype = some k)
    (h1 : src.available = true) (h2 : src.health = "ONLINE")
    (h3 : bk.available = true) :
    backup c ds btype src bk bk1 listing now =
      backupWithPool c ds btype k false bk listing now := by
  simp only [backup, hk]
  rw [if_neg (by rw [h1]; simp), if_neg (by rw [h2]; simp), if_neg (by rw [h3]; simp)]

/-- Claim C5 counterexample: with the backup pool's probed capacity at 9/10 —
above the claimed 0.8 warning threshold — the run completes with NO warning
notification in its trace; the code only warns when the capacity value is
BELOW 0.2 (line 383: `capacity_in_percent < 0.2`). -/
theorem C5_cex_no_warning_at_high_capacity :
    (backup cfgEx "data" "daily" srcOn bkHigh bkOn [] dtEx).1.any isWarnEv = false ∧
    (backup cfgEx "data" "daily" srcOn bkHigh bkOn [] dtEx).2 = Outcome.completed := by
  decide

/-- Claim C5 as amended: whenever the run reaches the capacity check with the
source pool gating passed and the backup pool available and healthy, a
(non-fatal) warning notification appears in the trace IF AND ONLY IF the
probed capacity value is strictly below 0.2; and the capacity value never
changes the run's outcome (it cannot block replication). -/
theorem C5_warn_iff_capacity_below_threshold (c : Config) (ds btype : String) (k : Int)
    (src bk0 bk1 : ZPoolStatus) (listing : List String) (now : PyDateTime) (q : ℚ)
    (hk : Config.get_num_backups c btype = some k)
    (h1 : src.available = true) (h2 : src.health = "ONLINE")
    (h3 : bk0.available = true) (h4 : bk0.health = "ONLINE") :
    (((backup c ds btype src bk0 bk1 listing now).1.any isWarnEv = true) ↔
      bk0.capacity_in_percent < mkRat 2 10) ∧
    (backup c ds btype src { bk0 with capacity_in_percent := q } bk1 listing now).2 =
      (backup c ds btype src bk0 bk1 listing now).2 := by
  rw [backup_reduces_no_import c ds btype k src bk0 bk1 listing now hk h1 h2 h3,
    backup_reduces_no_import c ds btype k src { bk0 with capacity_in_percent := q } bk1
      listing now hk h1 h2 h3]
  refine ⟨backupWithPool_warn_any c ds btype k false bk0 listing now h4, ?_⟩
  rw [backupWithPool_snd c ds btype k false { bk0 with capacity_in_percent := q } listing now,
    backupWithPool_snd c ds btype k false bk0 listing now]

/-- Witness for the amended C5 at a concrete input: capacity 1/10 (below 0.2)
does produce a warning, and replacing the capacity by 99 leaves the outcome
unchanged. -/
theorem C5_witness_low_capacity_warns :
    (backup cfgEx "data" "daily" srcOn bkLow bkOn [] dtEx).1.any isWarnEv = true ∧
    (backup cfgEx "data" "daily" srcOn { bkLow with capacity_in_percent := 99 } bkOn [] dtEx).2 =
      (backup cfgEx "data" "daily" srcOn bkLow bkOn [] dtEx).2 := by
  have h := C5_warn_iff_capacity_below_threshold cfgEx "data" "daily" 3 srcOn bkLow bkOn
    [] dtEx 99 (by decide) (by decide) (by decide) (by decide) (by decide)
  exact ⟨h.1.mpr (by decide), h.2⟩

/-- Claim C6 counterexample: with the source pool unavailable (probed health
defaults to UNAVAIL), the run aborts with the message
"zpool tank is not available", which does NOT contain the health value
"UNAVAIL" — refuting "a failure notification whose message contains the pool
name and the health value" for the unavailable case. -/
theorem C6_cex_unavailable_message_lacks_health :
    backup cfgEx "data" "daily" unavailTank bkOn bkOn [] dtEx =
      ([Ev.failNotify "zpool tank is not available"], Outcome.aborted) ∧
    strContains "zpool tank is not available" unavailTank.health = false := by
  decide

/-- Claim C6 as amended: whenever the source pool is unavailable or its probed
health is not ONLINE, the run aborts fatally, its trace is exactly one failure
notification whose message contains the pool name — and also the health value
when the pool was available but unhealthy (when unavailable, the message only
says the pool is not available) — and no snapshot is created at any point
before the abort. -/
theorem C6_source_gate_aborts_before_snapshot (c : Config) (ds btype : String) (k : Int)
    (src bk0 bk1 : ZPoolStatus) (listing : List String) (now : PyDateTime)
    (hk : Config.get_num_backups c btype = some k)
    (hbad : src.available = false ∨ src.health ≠ "ONLINE") :
    (backup c ds btype src bk0 bk1 listing now).2 = Outcome.aborted ∧
    (∃ msg, (backup c ds btype src bk0 bk1 listing now).1 = [Ev.failNotify msg] ∧
      strContains msg c.pool = true ∧
      (src.available = true → strContains msg src.health = true)) ∧
    (backup c ds btype src bk0 bk1 listing now).1.any isSnapshotEv = false := by
  by_cases hav : src.available = false
  · have hb : backup c ds btype src bk0 bk1 listing now =
        ([Ev.failNotify ("zpool " ++ c.pool ++ " is not available")], Outcome.aborted) := by
      simp only [backup, hk]
      rw [if_pos hav]
    rw [hb]
    refine ⟨rfl, ⟨"zpool " ++ c.pool ++ " is not available", rfl, ?_, ?_⟩,
      by simp [isSnapshotEv]⟩
    · exact strContains_sandwich "zpool " c.pool " is not available"
    · intro htrue
      rw [hav] at htrue
      exact absurd htrue (by simp)
  · have htrue : src.available = true := by
      cases hsa : src.available
      · exact absurd hsa hav
      · rfl
    have hneq : src.health ≠ "ONLINE" := by
      cases hbad with
      | inl h => exact absurd h hav
      | inr h => exact h
    have hb : backup c ds btype src bk0 bk1 listing now =
        ([Ev.failNotify ("zpool " ++ c.pool ++ " is not healthy (health=" ++
          src.health ++ ")")], Outcome.aborted) := by
      simp only [backup, hk]
      rw [if_neg (by rw [htrue]; simp), if_pos hneq]
    rw [hb]
    refine ⟨rfl, ⟨"zpool " ++ c.pool ++ " is not healthy (health=" ++ src.health ++ ")",
      rfl, ?_, fun _ => ?_⟩, by simp [isSnapshotEv]⟩
    · rw [stringAppendAssoc ("zpool " ++ c.pool ++ " is not healthy (health=") src.health ")",
        stringAppendAssoc ("zpool " ++ c.pool) " is not healthy (health=" (src.health ++ ")")]
      exact strContains_sandwich "zpool " c.pool (" is not healthy (health=" ++ (src.health ++ ")"))
    · exact strContains_sandwich ("zpool " ++ c.pool ++ " is not healthy (health=") src.health ")"

/-- Witness for the amended C6 at a concrete input: a DEGRADED source pool
aborts the run, the single failure message contains both the pool name and
"DEGRADED", and no snapshot event occurs. -/
theorem C6_witness_degraded_aborts :
    (backup cfgEx "data" "daily" degSrc bkOn bkOn [] dtEx).2 = Outcome.aborted ∧
    (backup cfgEx "data" "daily" degSrc bkOn bkOn [] dtEx).1.any isSnapshotEv = false := by
  have h := C6_source_gate_aborts_before_snapshot cfgEx "data" "daily" 3 degSrc bkOn bkOn
    [] dtEx (by decide) (Or.inr (by decide))
  exact ⟨h.1, h.2.2⟩

/-- Claim C7: within one `backup` call, when the call completes, the backup
pool is exported at the end if and only if the pool was unavailable at the
start (i.e. iff this call performed the import); and a backup pool that was
available at the start is never exported, also on aborted or crashed runs. -/
theorem backup_eq_no_tier (c : Config) (ds btype : String)
    (src bk0 bk1 : ZPoolStatus) (listing : List String) (now : PyDateTime)
    (hk : Config.get_num_backups c btype = none) :
    backup c ds btype src bk0 bk1 listing now = ([], Outcome.aborted) := by
  simp only [backup, hk]

theorem backup_eq_src_unavailable (c : Config) (ds btype : String) (k : Int)
    (src bk0 bk1 : ZPoolStatus) (listing : List String) (now : PyDateTime)
    (hk : Config.get_num_backups c btype = some k) (hav : src.available = false) :
    backup c ds btype src bk0 bk1 listing now =
      ([Ev.failNotify ("zpool " ++ c.pool ++ " is not available")], Outcome.aborted) := by
  simp only [backup, hk]
  rw [if_pos hav]

theorem backup_eq_src_unhealthy (c : Config) (ds btype : String) (k : Int)
    (src bk0 bk1 : ZPoolStatus) (listing : List String) (now : PyDateTime)
    (hk : Config.get_num_backups c btype = some k)
    (hav : src.available = true) (hne : src.health ≠ "ONLINE") :
    backup c ds btype src bk0 bk1 listing now =
      ([Ev.failNotify ("zpool " ++ c.pool ++ " is not healthy (health=" ++
        src.health ++ ")")], Outcome.aborted) := by
  simp only [backup, hk]
  rw [if_neg (by rw [hav]; simp), if_pos hne]

theorem backup_eq_with_import (c : Config) (ds btype : String) (k : Int)
    (src bk0 bk1 : ZPoolStatus) (listing : List String) (now : PyDateTime)
    (hk : Config.get_num_backups c btype = some k)
    (h1 : src.available = true) (h2 : src.health = "ONLINE")
    (hb : bk0.available = false) :
    backup c ds btype src bk0 bk1 listing now =
      backupWithPool c ds btype k true bk1 listing now := by
  simp only [backup, hk]
  rw [if_neg (by rw [h1]; simp), if_neg (by rw [h2]; simp), if_pos hb]

/-- Claim C7 counterexample: a run whose backup pool is unavailable at the
start performs the import (line 374), but when the re-probe is not ONLINE the
run aborts at line 381 — `exit(1)` — before ever reaching the export at lines
413-414: the trace holds the import event and NO export event, refuting
"exported at run end if and only if the import was performed by this run" as
an unconditional statement about every run.  (The same import-without-export
happens on every crashed run, e.g. the line-269 `ValueError` raised as soon
as the listing contains any generational snapshot.) -/
theorem C7_cex_import_without_export :
    backup cfgEx "data" "daily" srcOn unavailBkp degBk [] dtEx =
      ([Ev.zpoolImport "bkp",
        Ev.failNotify "backup zpool bkp is not healthy (health=DEGRADED)"],
       Outcome.aborted) ∧
    (backup cfgEx "data" "daily" srcOn unavailBkp degBk [] dtEx).1.any isImportEv = true ∧
    (backup cfgEx "data" "daily" srcOn unavailBkp degBk [] dtEx).1.any isExportEv = false := by
  decide

/-- Claim C7 as amended: within one `backup` call, when the call completes
normally, the backup pool is exported at the end if and only if the pool was
unavailable at the start (i.e. iff this call performed the import); and a
backup pool that was available at the start is never exported, also on
aborted or crashed runs.  (A call that imports and then aborts or crashes
exports nothing — see the counterexample.) -/
theorem C7_export_iff_imported (c : Config) (ds btype : String)
    (src bk0 bk1 : ZPoolStatus) (listing : List String) (now : PyDateTime) :
    ((backup c ds btype src bk0 bk1 listing now).2 = Outcome.completed →
      (((backup c ds btype src bk0 bk1 listing now).1.any isExportEv = true) ↔
        bk0.available = false)) ∧
    (bk0.available = true →
      (backup c ds btype src bk0 bk1 listing now).1.any isExportEv = false) := by
  cases hk : Config.get_num_backups c btype with
  | none =>
    rw [backup_eq_no_tier c ds btype src bk0 bk1 listing now hk]
    exact ⟨fun hcomp => absurd hcomp (by simp), fun _ => rfl⟩
  | some k =>
    by_cases hav : src.available = false
    · rw [backup_eq_src_unavailable c ds btype k src bk0 bk1 listing now hk hav]
      exact ⟨fun hcomp => absurd hcomp (by simp), fun _ => by simp [isExportEv]⟩
    · have htrue : src.available = true := by
        cases hsa : src.available
        · exact absurd hsa hav
        · rfl
      by_cases hhe : src.health ≠ "ONLINE"
      · rw [backup_eq_src_unhealthy c ds btype k src bk0 bk1 listing now hk htrue hhe]
        exact ⟨fun hcomp => absurd hcomp (by simp), fun _ => by simp [isExportEv]⟩
      · have h2 : src.health = "ONLINE" := not_not.mp hhe
        by_cases hb : bk0.available = false
        · rw [backup_eq_with_import c ds btype k src bk0 bk1 listing now hk htrue h2 hb]
          have he := backupWithPool_export c ds btype k true bk1 listing now
          refine ⟨fun hcomp => ⟨fun _ => hb, fun _ => he.mpr ⟨rfl, hcomp⟩⟩, fun habs => ?_⟩
          rw [habs] at hb
          exact absurd hb (by simp)
        · have hbt : bk0.available = true := by
            cases hsb : bk0.available
            · exact absurd hsb hb
            · rfl
          rw [backup_reduces_no_import c ds btype k src bk0 bk1 listing now hk htrue h2 hbt]
          have he := backupWithPool_export c ds btype k false bk0 listing now
          have hfalse :
              (backupWithPool c ds btype k false bk0 listing now).1.any isExportEv = false := by
            cases hx : (backupWithPool c ds btype k false bk0 listing now).1.any isExportEv
            · rfl
            · exact absurd (he.mp hx).1 (by simp)
          refine ⟨fun _ => ?_, fun _ => hfalse⟩
          rw [hfalse, hbt]
          constructor
          · intro hft
            exact absurd hft (by simp)
          · intro hbf
            exact absurd hbf (by simp)

/-- Witness for C7 at concrete inputs: a backup pool unavailable at the start
is imported and exported by the completed run; one available at the start is
not exported. -/
theorem C7_witness_export_matches_import :
    (backup cfgEx "data" "daily" srcOn unavailBkp bkOn [] dtEx).1.any isExportEv = true ∧
    (backup cfgEx "data" "daily" srcOn bkOn bkOn [] dtEx).1.any isExportEv = false := by
  have h1 := C7_export_iff_imported cfgEx "data" "daily" srcOn unavailBkp bkOn [] dtEx
  have h2 := C7_export_iff_imported cfgEx "data" "daily" srcOn bkOn bkOn [] dtEx
  exact ⟨(h1.1 (by decide)).mpr (by decide), h2.2 (by decide)⟩

/-- Claim C8 counterexample: after a FAILED run the lock is released but the
run-lock file still holds the pid line — its content is not cleared, refuting
"the run-lock file's content is cleared … whether the run succeeded or
failed". -/
theorem C8_cex_failed_run_keeps_pid :
    (mainLockRegion 123 false).lockReleased = true ∧
    (mainLockRegion 123 false).runFileContent = "123\n" ∧
    (mainLockRegion 123 false).runFileContent ≠ "" := by
  decide

/-- Claim C8 as amended: at the end of every run the lock itself is released
unconditionally (scoped acquisition), success or failure; but the run-lock
file's content is truncated to empty if and only if the run completed
cleanly — after a failure it still holds the pid line. -/
theorem C8_lock_released_content_cleared_iff_clean (pid : Nat) (ok : Bool) :
    (mainLockRegion pid ok).lockReleased = true ∧
    ((mainLockRegion pid ok).runFileContent = "" ↔ ok = true) := by
  cases ok
  · refine ⟨rfl, ?_⟩
    simp only [mainLockRegion, if_false, Bool.false_eq_true, iff_false]
    intro h
    have hd := congrArg String.data h
    rw [stringDataAppend] at hd
    simp at hd
  · exact ⟨rfl, by simp [mainLockRegion]⟩

/-- Claim C9: if the health/capacity query exits non-zero, `get_zpool_status`
returns — without raising and without treating it as fatal — a status with
available=false, health defaulted to "UNAVAIL" and capacity defaulted to 0;
and every returned status with available=false carries exactly those
defaults. -/
theorem C9_unavailable_has_default_status (poolName : String) (res : ProcResult) :
    (res.returncode ≠ 0 →
      get_zpool_status poolName res =
        Except.ok { name := poolName, available := false, health := "UNAVAIL",
                    capacity_in_percent := 0 }) ∧
    (∀ st : ZPoolStatus, get_zpool_status poolName res = Except.ok st →
      st.available = false →
        st.health = "UNAVAIL" ∧ st.capacity_in_percent = 0) := by
  constructor
  · intro h
    unfold get_zpool_status
    rw [if_pos h]
  · intro st hok hav
    unfold get_zpool_status at hok
    by_cases h : res.returncode ≠ 0
    · rw [if_pos h] at hok
      injection hok with h2
      subst h2
      exact ⟨rfl, rfl⟩
    · rw [if_neg h] at hok
      have h3 : st.available = true :=
        statusFold_available poolName res.stdout
          { name := poolName, available := true } st hok
      rw [hav] at h3
      exact absurd h3 (by simp)

/-- Witness for C9 at a concrete input: a probe exiting with status 1 yields
the default unavailable status. -/
theorem C9_witness_failed_probe_defaults :
    get_zpool_status "tank" ⟨1, [], "cannot open tank"⟩ =
      Except.ok { name := "tank", available := false, health := "UNAVAIL",
                  capacity_in_percent := 0 } := by
  have h := C9_unavailable_has_default_status "tank" ⟨1, [], "cannot open tank"⟩
  exact h.1 (by decide)

/-- Claim C10: every notification e-mail the core sends is addressed to the
fixed literal recipient news@hierlmeier.de — the first header written is
always that literal — and the message is completely independent of the
`mailTo` recipient loaded from the configuration. -/
theorem C10_recipient_is_fixed_literal (c : Config) (body subject : String) :
    (sendmail c body subject).head? = some ("To: " ++ "news@hierlmeier.de" ++ "\n") ∧
    (∀ m : String, sendmail { c with mail_to := m } body subject = sendmail c body subject) :=
  ⟨rfl, fun _ => rfl⟩

end ZfsBackup
